import Mathlib

/-!
Verification development for the `diabet_tools` repository.

The file shallowly embeds the parts of the code that the specification's
claims are about: the pharmacokinetic kernel library
(`active_insulin.py`, `fractional_absorption.py`), the patient-parameter
estimators (`individualized_constants.py`), the event-superposition
engine and the windowed aggregator (`timeseries_calc.py`).

Modelling conventions:
  * Times (hours) and event magnitudes coming from the data table are
    rationals; kernel values and trajectories live in `ℝ`, with
    `Real.exp` standing for `np.exp` and real division for float
    division (divisors are shown nonzero wherever the code divides,
    except for the one aggregate division modelled by `pdiv` below,
    which keeps the IEEE inf/NaN behaviour of pandas).
  * Python `raise ValueError(msg)` is modelled as `Except.error msg`
    (message text abbreviated to plain ASCII).
  * The source lowercases the `sex` argument before comparing it; the
    embedding takes `sex` already lowercased, which is how every caller
    in the repository passes it.
-/

namespace DiabetTools

open Real Filter Set

/-- Absorption rate constant of fast-acting insulin (1/hr), `active_insulin.py`. -/
def K_ABS_NOVORAPID : ℝ := 3.0

/-- Elimination rate constant of fast-acting insulin (1/hr), `active_insulin.py`. -/
def K_ELIM_NOVORAPID : ℝ := 0.8

/-- Absorption rate constant of long-acting insulin (1/hr), `active_insulin.py`. -/
def K_ABS_TRESIBA : ℝ := 0.3

/-- Elimination rate constant of long-acting insulin (1/hr), `active_insulin.py`. -/
def K_ELIM_TRESIBA : ℝ := 0.03

/-- Maximum absorbable carbohydrate fraction, `fractional_absorption.py`. -/
def F_MAX : ℝ := 1

/-- Default carbohydrate absorption rate constant (1/min), `fractional_absorption.py`. -/
def K_A : ℝ := 0.01

/-- Default carbohydrate absorption lag time (minutes), `fractional_absorption.py`. -/
def LAG_TIME : ℝ := 0

/-- Body of `active_insulin` after the kind dispatch: the bi-exponential
active fraction for one unit, floored at 0, and 0 for `t ≤ 0`. -/
noncomputable def aib_kernel (k_abs k_elim t : ℝ) : ℝ :=
  if t ≤ 0 then 0
  else max 0 (k_elim * k_abs * (exp (-k_elim * t) - exp (-k_abs * t)) / (k_abs - k_elim))

/-- Body of `insulin_on_board` after the kind dispatch: the remaining
(on-board) fraction for one unit, floored at 0, and 0 for `t ≤ 0`. -/
noncomputable def iob_kernel (k_abs k_elim t : ℝ) : ℝ :=
  if t ≤ 0 then 0
  else max 0 ((k_abs * exp (-k_elim * t) - k_elim * exp (-k_abs * t)) / (k_abs - k_elim))

/-- Function `active_insulin(t, type)` of `active_insulin.py`: dispatch on the
substance kind, `ValueError` for an unrecognized kind. -/
noncomputable def active_insulin (t : ℝ) (ty : String) : Except String ℝ :=
  if ty = "novorapid" then Except.ok (aib_kernel K_ABS_NOVORAPID K_ELIM_NOVORAPID t)
  else if ty = "tresiba" then Except.ok (aib_kernel K_ABS_TRESIBA K_ELIM_TRESIBA t)
  else Except.error "Type must be novorapid or tresiba"

/-- Function `insulin_on_board(t, type)` of `active_insulin.py`. -/
noncomputable def insulin_on_board (t : ℝ) (ty : String) : Except String ℝ :=
  if ty = "novorapid" then Except.ok (iob_kernel K_ABS_NOVORAPID K_ELIM_NOVORAPID t)
  else if ty = "tresiba" then Except.ok (iob_kernel K_ABS_TRESIBA K_ELIM_TRESIBA t)
  else Except.error "Type must be novorapid or tresiba"

/-- Function `fractional_absorption(time, k_a, f_max, lag_time)` of
`fractional_absorption.py` (time in minutes): first-order absorption with
lag clamping, forced to 0 before the lag time. -/
noncomputable def fractional_absorption (time k_a f_max lag_time : ℝ) : ℝ :=
  let effective_time := max (time - lag_time) 0
  let fraction := f_max * (1 - exp (-k_a * effective_time))
  if time < lag_time then 0 else fraction

/-- Function `carbs_on_board(time, total_carbs, k_a, f_max, lag_time)` of
`fractional_absorption.py` (time in hours, converted to minutes inside):
special-cases `time == 0` to 0, otherwise unabsorbed fraction times mass. -/
noncomputable def carbs_on_board (time total_carbs k_a f_max lag_time : ℝ) : ℝ :=
  if time = 0 then 0
  else total_carbs * (f_max - fractional_absorption (time * 60) k_a f_max lag_time)

lemma iob_kernel_nonpos (k_abs k_elim : ℝ) {t : ℝ} (ht : t ≤ 0) :
    iob_kernel k_abs k_elim t = 0 := by
  simp [iob_kernel, ht]

lemma aib_kernel_nonpos (k_abs k_elim : ℝ) {t : ℝ} (ht : t ≤ 0) :
    aib_kernel k_abs k_elim t = 0 := by
  simp [aib_kernel, ht]

lemma carbs_on_board_zero_time (c k_a f_max lag : ℝ) :
    carbs_on_board 0 c k_a f_max lag = 0 := by
  simp [carbs_on_board]

/-- With the default constants, a negative elapsed time yields the full
carbohydrate mass back: the absorbed fraction is clamped to 0 and
`f_max - 0 = 1` is multiplied by `total_carbs`. -/
lemma carbs_on_board_neg_time (c : ℝ) {t : ℝ} (ht : t < 0) :
    carbs_on_board t c K_A F_MAX LAG_TIME = c := by
  have ht0 : t ≠ 0 := ne_of_lt ht
  have ht60 : t * 60 < 0 := by nlinarith
  have hmax : max (t * 60 - 0) 0 = 0 := by
    rw [max_eq_right]; nlinarith
  simp only [carbs_on_board, fractional_absorption, LAG_TIME, F_MAX, K_A, ht0, if_false,
    ht60, if_pos, hmax]
  norm_num

/-- With the default constants, a positive elapsed time (hours) yields the
closed form `c * exp (-(0.6) * t)`: the code converts to minutes and applies
first-order absorption with no lag. -/
lemma carbs_on_board_pos_time (c : ℝ) {t : ℝ} (ht : 0 < t) :
    carbs_on_board t c K_A F_MAX LAG_TIME = c * exp (-(0.6) * t) := by
  have ht0 : t ≠ 0 := ne_of_gt ht
  have ht60 : ¬ t * 60 < 0 := by nlinarith
  have hmax : max (t * 60 - 0) 0 = t * 60 := by
    rw [sub_zero]; exact max_eq_left (by nlinarith)
  simp only [carbs_on_board, fractional_absorption, LAG_TIME, F_MAX, K_A, ht0, if_false,
    ht60, hmax]
  ring_nf

/-- Function `calculate_insulin_clearance` of `individualized_constants.py`:
method dispatch (height-based, BSA via the Dubois formula, allometric),
female adjustment, age adjustment above 40 floored at 70 percent, and a
final clip to the interval from 0.5 to 3.0 L/min. -/
noncomputable def calculate_insulin_clearance (height_cm : ℝ) (weight_kg : Option ℝ)
    (age_years : Option ℝ) (sex method : String) : Except String ℝ :=
  let base : Except String ℝ :=
    if method = "height_based" then
      let base_clearance : ℝ := 1.2
      let height_factor := (height_cm - 170) / 100
      let clearance := base_clearance * (1 + 0.4 * height_factor)
      Except.ok (if sex = "female" then clearance * 0.85 else clearance)
    else if method = "bsa" then
      match weight_kg with
      | none => Except.error "Weight required for BSA-based clearance calculation"
      | some w =>
        let bsa := 0.007184 * w ^ (0.425 : ℝ) * height_cm ^ (0.725 : ℝ)
        Except.ok (0.65 * bsa)
    else if method = "allometric" then
      match weight_kg with
      | none => Except.error "Weight required for allometric clearance calculation"
      | some w =>
        let clearance := 1.5 * (w / 70) ^ (0.75 : ℝ)
        Except.ok (clearance * (height_cm / 170) ^ (0.25 : ℝ))
    else Except.error "Method must be height_based, bsa, or allometric"
  match base with
  | Except.error e => Except.error e
  | Except.ok clearance =>
    let clearance :=
      match age_years with
      | some a => if a > 40 then clearance * max (1 - 0.01 * (a - 40)) 0.7 else clearance
      | none => clearance
    Except.ok (min (max clearance 0.5) 3.0)

/-- Function `calculate_glucose_volume_distribution` of
`individualized_constants.py`: method dispatch (TBW-based, BSA-based,
weight-based), sex and age corrections, height fine adjustment,
pediatric/elderly adjustments and a final clip to 5 to 25 liters. -/
noncomputable def calculate_glucose_volume_distribution (height_cm : ℝ) (weight_kg : Option ℝ)
    (age_years : Option ℝ) (sex method : String) : Except String ℝ :=
  let base : Except String ℝ :=
    if method = "tbw_based" then
      match weight_kg with
      | none => Except.error "Weight required for TBW-based volume calculation"
      | some w =>
        let tbw_percent : ℝ := if sex = "male" then 0.60 else 0.50
        let tbw_percent :=
          match age_years with
          | some a => if a > 30 then tbw_percent * max (1 - 0.01 * (a - 30) / 10) 0.85
                      else tbw_percent
          | none => tbw_percent
        Except.ok (w * tbw_percent * 0.45)
    else if method = "bsa_based" then
      match weight_kg with
      | none => Except.error "Weight required for BSA-based volume calculation"
      | some w =>
        let bsa := 0.007184 * w ^ (0.425 : ℝ) * height_cm ^ (0.725 : ℝ)
        Except.ok (13.5 * bsa)
    else if method = "weight_based" then
      match weight_kg with
      | none => Except.error "Weight required for weight-based volume calculation"
      | some w =>
        let base_volume_per_kg : ℝ := 0.20
        let base_volume_per_kg := if sex = "female" then base_volume_per_kg * 0.90
                                  else base_volume_per_kg
        Except.ok (w * base_volume_per_kg)
    else Except.error "Method must be tbw_based, bsa_based, or weight_based"
  match base with
  | Except.error e => Except.error e
  | Except.ok volume =>
    let volume := volume * (height_cm / 170) ^ (0.15 : ℝ)
    let volume :=
      match age_years with
      | some a =>
        if a < 18 then volume * min (1 + 0.02 * (18 - a)) 1.3
        else if a > 65 then volume * max (1 - 0.005 * (a - 65)) 0.85
        else volume
      | none => volume
    Except.ok (min (max volume 5.0) 25.0)

/-- Insulin clearance as used by `process_period` in `timeseries_calc.py`,
which calls the estimator with the module constants `BW = 53`,
`HEIGHT_CM = 170`, `AGE_YEARS = 14` and the defaults `sex = male`,
`method = height_based`. -/
noncomputable def CL_period : ℝ :=
  ((calculate_insulin_clearance 170 (some 53) (some 14) "male" "height_based").toOption).getD 0

/-- Glucose volume of distribution as used by `process_period`. -/
noncomputable def Vg_period : ℝ :=
  ((calculate_glucose_volume_distribution 170 (some 53) (some 14) "male" "tbw_based").toOption).getD 0

lemma CL_period_eq : CL_period = 1.2 := by
  have h : calculate_insulin_clearance 170 (some 53) (some 14) "male" "height_based"
      = Except.ok (1.2 : ℝ) := by
    simp only [calculate_insulin_clearance,
      show (("male" : String) = "female") = False by simp]
    norm_num
  simp [CL_period, h, Except.toOption]

lemma Vg_period_eq : Vg_period = 15.4548 := by
  have h : calculate_glucose_volume_distribution 170 (some 53) (some 14) "male" "tbw_based"
      = Except.ok (15.4548 : ℝ) := by
    simp only [calculate_glucose_volume_distribution,
      show (("male" : String) = "male") = True by simp]
    norm_num [Real.one_rpow]
  simp [Vg_period, h, Except.toOption]

/-- One row of the input time series of
`calculate_active_insulin_and_carbs_timeseries`: timestamp
(`DateTime_rounded`, hours on the sample grid), glucose, the three
fast-acting bolus fields, the long-acting `basal` field and the `carbs`
field.  The source's `fillna(0)` is absorbed by using total rationals. -/
structure Sample where
  t : ℚ
  glucose : ℚ
  carb_bolus : ℚ
  correction_bolus : ℚ
  extended_bolus : ℚ
  basal : ℚ
  carbs : ℚ
deriving DecidableEq

instance : Inhabited Sample := ⟨⟨0, 0, 0, 0, 0, 0, 0⟩⟩

/-- Column `total_bolus` computed by the engine: sum of the three bolus fields. -/
def total_bolus (r : Sample) : ℚ := r.carb_bolus + r.correction_bolus + r.extended_bolus

/-- Column `total_basal` computed by the engine. -/
def total_basal (r : Sample) : ℚ := r.basal

/-- Column `total_carbs` computed by the engine. -/
def total_carbs (r : Sample) : ℚ := r.carbs

/-- Amount the fast-insulin pass adds, for one event at time `et` of
magnitude `m`, to the sample at time `τ`: the kernel at elapsed time 0 on
the event's own row, and `insulin_on_board(dt) * m` on a strictly later
row when `0 < dt ≤ 6` hours (`timeseries_calc.py`, bolus loop). -/
noncomputable def bolus_cell (et m τ : ℚ) : ℝ :=
  if τ = et then iob_kernel K_ABS_NOVORAPID K_ELIM_NOVORAPID 0 * (m : ℝ)
  else if et < τ then
    (if 0 < τ - et ∧ τ - et ≤ 6 then
      iob_kernel K_ABS_NOVORAPID K_ELIM_NOVORAPID ((τ - et : ℚ) : ℝ) * (m : ℝ)
    else 0)
  else 0

/-- Amount the long-insulin (basal) pass adds: same shape with the
tresiba constants and the 96-hour window (`timeseries_calc.py`, basal loop). -/
noncomputable def basal_cell (et m τ : ℚ) : ℝ :=
  if τ = et then iob_kernel K_ABS_TRESIBA K_ELIM_TRESIBA 0 * (m : ℝ)
  else if et < τ then
    (if 0 < τ - et ∧ τ - et ≤ 96 then
      iob_kernel K_ABS_TRESIBA K_ELIM_TRESIBA ((τ - et : ℚ) : ℝ) * (m : ℝ)
    else 0)
  else 0

/-- Amount the carbohydrate pass adds: `carbs_on_board(0, m)` on the
event's own row and `carbs_on_board(dt, m)` on every strictly later row,
with no validity cap (`timeseries_calc.py`, carb loop). -/
noncomputable def carb_cell (et m τ : ℚ) : ℝ :=
  if τ = et then carbs_on_board 0 (m : ℝ) K_A F_MAX LAG_TIME
  else if et < τ then carbs_on_board ((τ - et : ℚ) : ℝ) (m : ℝ) K_A F_MAX LAG_TIME
  else 0

/-- One pass of the superposition engine: filter the rows whose selected
magnitude is positive (the source's `df[df[total] > 0]`), then walk them
in order, adding each event's cell contribution to every sample.  The
trajectory is indexed by the sample timestamp; timestamps are unique and
increasing per the data model, so this is the per-row trajectory. -/
noncomputable def run_pass (rows : List Sample) (sel : Sample → ℚ)
    (cell : ℚ → ℚ → ℚ → ℝ) : ℚ → ℝ :=
  (rows.filter fun r => decide (0 < sel r)).foldl
    (fun traj e => fun τ => traj τ + cell e.t (sel e) τ) (fun _ => 0)

/-- Output of the superposition engine: the input rows (pre-existing
columns are only copied, never rewritten) and the three state
trajectories plus their sum. -/
structure EngineOutput where
  rows : List Sample
  IOB_novorapid : ℚ → ℝ
  IOB_tresiba : ℚ → ℝ
  COB : ℚ → ℝ
  total_active_insulin : ℚ → ℝ

/-- Function `calculate_active_insulin_and_carbs_timeseries` of
`timeseries_calc.py`: three independent superposition passes over the
bolus, basal and carb events.  The source's initial sort by
`DateTime_rounded` is modelled by the data-model invariant that the
input grid is already chronological with unique timestamps. -/
noncomputable def calculate_active_insulin_and_carbs_timeseries
    (rows : List Sample) : EngineOutput :=
  { rows := rows
    IOB_novorapid := run_pass rows total_bolus bolus_cell
    IOB_tresiba := run_pass rows total_basal basal_cell
    COB := run_pass rows total_carbs carb_cell
    total_active_insulin := fun τ =>
      run_pass rows total_bolus bolus_cell τ + run_pass rows total_basal basal_cell τ }

lemma foldl_add_cell (cell : ℚ → ℚ → ℚ → ℝ) (sel : Sample → ℚ) (l : List Sample)
    (init : ℚ → ℝ) (τ : ℚ) :
    (l.foldl (fun traj e => fun τ => traj τ + cell e.t (sel e) τ) init) τ
      = init τ + (l.map fun e => cell e.t (sel e) τ).sum := by
  induction l generalizing init with
  | nil => simp
  | cons a l ih =>
    simp only [List.foldl_cons, List.map_cons, List.sum_cons, ih]
    ring

lemma sum_map_filter_decide (p : Sample → Prop) [DecidablePred p] (f : Sample → ℝ)
    (l : List Sample) :
    ((l.filter fun r => decide (p r)).map f).sum
      = (l.map fun r => if p r then f r else 0).sum := by
  induction l with
  | nil => simp
  | cons a l ih =>
    by_cases h : p a <;>
      simp [List.filter_cons, h, ih]

/-- Closed form of one engine pass: the trajectory at time `τ` is the sum
over all rows of the cell contribution, gated by the positive-magnitude
event filter. -/
lemma run_pass_eq_sum (rows : List Sample) (sel : Sample → ℚ)
    (cell : ℚ → ℚ → ℚ → ℝ) (τ : ℚ) :
    run_pass rows sel cell τ
      = (rows.map fun e => if 0 < sel e then cell e.t (sel e) τ else 0).sum := by
  unfold run_pass
  rw [foldl_add_cell]
  simp [sum_map_filter_decide (fun r => 0 < sel r) (fun e => cell e.t (sel e) τ) rows]

lemma bolus_cell_zero_mass (et τ : ℚ) : bolus_cell et 0 τ = 0 := by
  unfold bolus_cell
  split_ifs <;> simp

lemma basal_cell_zero_mass (et τ : ℚ) : basal_cell et 0 τ = 0 := by
  unfold basal_cell
  split_ifs <;> simp

lemma carbs_on_board_zero_mass (t k_a f_max lag : ℝ) :
    carbs_on_board t 0 k_a f_max lag = 0 := by
  unfold carbs_on_board
  split_ifs <;> simp

lemma carb_cell_zero_mass (et τ : ℚ) : carb_cell et 0 τ = 0 := by
  unfold carb_cell
  split_ifs <;> simp [carbs_on_board_zero_mass]

/-- Closed form of one engine pass when the selected magnitudes are
non-negative (the data-model invariant): the filter gate disappears
because a zero-magnitude event contributes zero. -/
lemma run_pass_eq_sum_of_nonneg (rows : List Sample) (sel : Sample → ℚ)
    (cell : ℚ → ℚ → ℚ → ℝ) (hz : ∀ et τ, cell et 0 τ = 0)
    (h : ∀ e ∈ rows, 0 ≤ sel e) (τ : ℚ) :
    run_pass rows sel cell τ = (rows.map fun e => cell e.t (sel e) τ).sum := by
  rw [run_pass_eq_sum]
  apply congrArg
  apply List.map_congr_left
  intro e he
  rcases lt_or_eq_of_le (h e he) with hpos | heq
  · simp [hpos]
  · simp [← heq, hz]

lemma bolus_cell_window (et m τ : ℚ) :
    bolus_cell et m τ
      = if et < τ ∧ τ - et ≤ 6 then
          iob_kernel K_ABS_NOVORAPID K_ELIM_NOVORAPID ((τ - et : ℚ) : ℝ) * (m : ℝ)
        else 0 := by
  unfold bolus_cell
  by_cases hte : τ = et
  · simp [hte, iob_kernel_nonpos _ _ (le_refl (0:ℝ)), lt_irrefl]
  · by_cases hlt : et < τ
    · have hpos : 0 < τ - et := by linarith
      by_cases hle : τ - et ≤ 6 <;> simp [hte, hlt, hpos, hle]
    · have : ¬ (et < τ ∧ τ - et ≤ 6) := fun hc => hlt hc.1
      simp [hte, hlt, this]

lemma basal_cell_window (et m τ : ℚ) :
    basal_cell et m τ
      = if et < τ ∧ τ - et ≤ 96 then
          iob_kernel K_ABS_TRESIBA K_ELIM_TRESIBA ((τ - et : ℚ) : ℝ) * (m : ℝ)
        else 0 := by
  unfold basal_cell
  by_cases hte : τ = et
  · simp [hte, iob_kernel_nonpos _ _ (le_refl (0:ℝ)), lt_irrefl]
  · by_cases hlt : et < τ
    · have hpos : 0 < τ - et := by linarith
      by_cases hle : τ - et ≤ 96 <;> simp [hte, hlt, hpos, hle]
    · have : ¬ (et < τ ∧ τ - et ≤ 96) := fun hc => hlt hc.1
      simp [hte, hlt, this]

lemma carb_cell_window (et m τ : ℚ) :
    carb_cell et m τ
      = if et < τ then carbs_on_board ((τ - et : ℚ) : ℝ) (m : ℝ) K_A F_MAX LAG_TIME
        else 0 := by
  unfold carb_cell
  by_cases hte : τ = et
  · simp [hte, carbs_on_board_zero_time, lt_irrefl]
  · by_cases hlt : et < τ <;> simp [hte, hlt]

lemma bolus_cell_add (et m₁ m₂ τ : ℚ) :
    bolus_cell et (m₁ + m₂) τ = bolus_cell et m₁ τ + bolus_cell et m₂ τ := by
  simp only [bolus_cell_window]
  split_ifs <;> push_cast <;> ring

lemma basal_cell_add (et m₁ m₂ τ : ℚ) :
    basal_cell et (m₁ + m₂) τ = basal_cell et m₁ τ + basal_cell et m₂ τ := by
  simp only [basal_cell_window]
  split_ifs <;> push_cast <;> ring

lemma carbs_on_board_add_mass (t c₁ c₂ k_a f_max lag : ℝ) :
    carbs_on_board t (c₁ + c₂) k_a f_max lag
      = carbs_on_board t c₁ k_a f_max lag + carbs_on_board t c₂ k_a f_max lag := by
  unfold carbs_on_board
  split_ifs with h
  · simp
  · ring

lemma carb_cell_add (et m₁ m₂ τ : ℚ) :
    carb_cell et (m₁ + m₂) τ = carb_cell et m₁ τ + carb_cell et m₂ τ := by
  simp only [carb_cell_window]
  split_ifs with h
  · push_cast
    exact carbs_on_board_add_mass _ _ _ _ _ _
  · simp

/-- Pointwise merge of two event series sharing a sample grid: the union
series keeps the grid and glucose of the first series and adds the dose
and carb fields. -/
def merge_sample (a b : Sample) : Sample :=
  { t := a.t
    glucose := a.glucose
    carb_bolus := a.carb_bolus + b.carb_bolus
    correction_bolus := a.correction_bolus + b.correction_bolus
    extended_bolus := a.extended_bolus + b.extended_bolus
    basal := a.basal + b.basal
    carbs := a.carbs + b.carbs }

/-- Predicate for a row carrying any event (nonzero dose or carb field in
the positive sense used by the engine's filters). -/
def has_event (r : Sample) : Prop :=
  0 < total_bolus r ∨ 0 < total_basal r ∨ 0 < total_carbs r

instance (r : Sample) : Decidable (has_event r) := by
  unfold has_event
  exact inferInstance

lemma zipWith_gated_sum (cell : ℚ → ℚ → ℚ → ℝ)
    (hadd : ∀ et m₁ m₂ τ, cell et (m₁ + m₂) τ = cell et m₁ τ + cell et m₂ τ)
    (sel : Sample → ℚ)
    (hsel : ∀ a b, sel (merge_sample a b) = sel a + sel b) :
    ∀ (l₁ l₂ : List Sample), List.Forall₂ (fun a b => a.t = b.t) l₁ l₂ →
      (∀ e ∈ l₁, 0 ≤ sel e) → (∀ e ∈ l₂, 0 ≤ sel e) → ∀ τ,
      ((List.zipWith merge_sample l₁ l₂).map
          fun e => if 0 < sel e then cell e.t (sel e) τ else 0).sum
        = (l₁.map fun e => if 0 < sel e then cell e.t (sel e) τ else 0).sum
          + (l₂.map fun e => if 0 < sel e then cell e.t (sel e) τ else 0).sum := by
  intro l₁
  induction l₁ with
  | nil =>
    intro l₂ hf _ _ τ
    cases hf
    simp
  | cons a l ih =>
    intro l₂ hf h₁ h₂ τ
    cases hf with
    | cons hab htl =>
      rename_i b l₂'
      simp only [List.zipWith_cons_cons, List.map_cons, List.sum_cons]
      rw [ih l₂' htl (fun e he => h₁ e (List.mem_cons_of_mem _ he))
        (fun e he => h₂ e (List.mem_cons_of_mem _ he)) τ]
      have ha := h₁ a (List.mem_cons_self _ _)
      have hb := h₂ b (List.mem_cons_self _ _)
      have hbt : b.t = a.t := hab.symm
      have hhead :
          (if 0 < sel (merge_sample a b) then
            cell (merge_sample a b).t (sel (merge_sample a b)) τ else 0)
          = (if 0 < sel a then cell a.t (sel a) τ else 0)
            + (if 0 < sel b then cell b.t (sel b) τ else 0) := by
        have hmt : (merge_sample a b).t = a.t := rfl
        rw [hmt, hsel, hbt]
        rcases eq_or_lt_of_le ha with ha0 | hapos
        · rcases eq_or_lt_of_le hb with hb0 | hbpos
          · simp [← ha0, ← hb0]
          · simp [← ha0, hbpos]
        · rcases eq_or_lt_of_le hb with hb0 | hbpos
          · simp [← hb0, hapos]
          · have hsum : 0 < sel a + sel b := by linarith
            simp [hsum, hapos, hbpos, hadd]
      rw [hhead]
      ring

/-- Generic superposition step: one pass over the merged series splits into
the two separate passes, provided the cell is additive in the magnitude,
the selector is additive under the merge, and magnitudes are
non-negative. -/
lemma run_pass_merge (cell : ℚ → ℚ → ℚ → ℝ)
    (hadd : ∀ et m₁ m₂ τ, cell et (m₁ + m₂) τ = cell et m₁ τ + cell et m₂ τ)
    (sel : Sample → ℚ)
    (hsel : ∀ a b, sel (merge_sample a b) = sel a + sel b)
    (rows₁ rows₂ : List Sample)
    (htimes : List.Forall₂ (fun a b => a.t = b.t) rows₁ rows₂)
    (h₁ : ∀ e ∈ rows₁, 0 ≤ sel e) (h₂ : ∀ e ∈ rows₂, 0 ≤ sel e) (τ : ℚ) :
    run_pass (List.zipWith merge_sample rows₁ rows₂) sel cell τ
      = run_pass rows₁ sel cell τ + run_pass rows₂ sel cell τ := by
  rw [run_pass_eq_sum, run_pass_eq_sum, run_pass_eq_sum]
  exact zipWith_gated_sum cell hadd sel hsel rows₁ rows₂ htimes h₁ h₂ τ

/-- Pandas column assignment `df[c] = ...`: appends the column name when it
is new, otherwise leaves the schema unchanged. -/
def addCol (cols : List String) (c : String) : List String :=
  if c ∈ cols then cols else cols ++ [c]

/-- Schema effect of `calculate_active_insulin_and_carbs_timeseries`, in
source order: the helper columns `total_bolus`, `total_carbs`,
`total_basal` first, then the three state columns, and
`total_active_insulin` assigned once per basal event inside the basal
loop (so only when at least one row has positive `total_basal`). -/
def engineColumns (inputCols : List String) (rows : List Sample) : List String :=
  let c1 := addCol (addCol (addCol inputCols "total_bolus") "total_carbs") "total_basal"
  let c2 := addCol (addCol (addCol c1 "IOB_novorapid") "IOB_tresiba") "COB"
  (rows.filter fun r => decide (0 < total_basal r)).foldl
    (fun cs _ => addCol cs "total_active_insulin") c2

lemma addCol_addCol (cols : List String) (c : String) :
    addCol (addCol cols c) c = addCol cols c := by
  unfold addCol
  split_ifs <;> simp_all [List.mem_append]

lemma foldl_addCol (c : String) (l : List Sample) (cols : List String) :
    l.foldl (fun cs _ => addCol cs c) cols
      = if l = [] then cols else addCol cols c := by
  induction l generalizing cols with
  | nil => simp
  | cons a l ih =>
    simp only [List.foldl_cons, ih, addCol_addCol]
    by_cases h : l = [] <;> simp [h]

/-- One annotated row handed to `process_period`: the engine's output plus
the grouping column, the glucose reading and the `time_interval` column
(hours per sample) that the aggregator multiplies into the glucose
excess. -/
structure PRow where
  t : ℚ
  group : ℚ
  glucose : ℚ
  carb_bolus : ℚ
  correction_bolus : ℚ
  extended_bolus : ℚ
  total_carbs : ℚ
  total_basal : ℚ
  IOB_novorapid : ℚ
  IOB_tresiba : ℚ
  COB : ℚ
  time_interval : ℚ
deriving DecidableEq

instance : Inhabited PRow := ⟨⟨0, 0, 0, 0, 0, 0, 0, 0, 0, 0, 0, 0⟩⟩

/-- Row-level `total_bolus` computed inside `process_period`. -/
def prow_total_bolus (r : PRow) : ℚ := r.carb_bolus + r.correction_bolus + r.extended_bolus

/-- Rounding to four decimal places (the aggregator's `.round(4)`). -/
def roundq4 (x : ℚ) : ℚ := (round (x * 10000) : ℤ) / 10000

/-- Rows of one group (`dataset.groupby(group_col)`). -/
def groupRows (rows : List PRow) (g : ℚ) : List PRow :=
  rows.filter fun r => decide (r.group = g)

def qminList (l : List ℚ) : ℚ :=
  match l with
  | [] => 0
  | h :: t => t.foldl min h

def qmaxList (l : List ℚ) : ℚ :=
  match l with
  | [] => 0
  | h :: t => t.foldl max h

/-- Group-level aggregate row produced by `process_period` (the rational
part; the sensitivity columns are separate because of their IEEE division). -/
structure PeriodAgg where
  total_carbs : ℚ
  total_bolus : ℚ
  total_basal : ℚ
  AUC_delta_glucose : ℚ
  AUC_abs_delta_glucose : ℚ
  first_reading : ℚ
  last_reading : ℚ
  period_length : ℚ
  AoC : ℚ
  AUC_novorapid : ℚ
  AUC_tresiba : ℚ
deriving DecidableEq

/-- Body weight constant `BW = 53` of `timeseries_calc.py`. -/
def BW : ℚ := 53

/-- Conversion constant `CONVERSION = 18` of `timeseries_calc.py`. -/
def CONVERSION : ℚ := 18

/-- Glucose effectiveness at zero insulin, `GEZI = 0.01`. -/
def GEZI : ℚ := 1 / 100

/-- The per-group computation of `process_period(df_period, group_col,
use_period_start_glucose_as_basal, basal_glucose, time_interval)` of
`timeseries_calc.py`.  The boundary state values are taken from the first
and last row of the WHOLE input (`dataset.iloc[0]` and
`dataset.iloc[-1]`), not of the group; group sums are rounded to four
decimals; `period_length` adds one five-minute grid step (5 * 60 seconds)
to the span between the group's first and last timestamp. -/
def process_period_group (rows : List PRow) (use_period_start_glucose_as_basal : Bool)
    (basal_glucose : ℚ) (g : ℚ) : PeriodAgg :=
  let IOB_novorapid_start := rows.headI.IOB_novorapid
  let IOB_novorapid_end := (rows.getLastD default).IOB_novorapid
  let IOB_tresiba_start := rows.headI.IOB_tresiba
  let IOB_tresiba_end := (rows.getLastD default).IOB_tresiba
  let COB_start := rows.headI.COB
  let COB_end := (rows.getLastD default).COB
  let glucose_start := rows.headI.glucose
  let bg := if use_period_start_glucose_as_basal then glucose_start else basal_glucose
  let rg := groupRows rows g
  let tc := roundq4 ((rg.map fun r => r.total_carbs).sum)
  let tb := roundq4 ((rg.map prow_total_bolus).sum)
  let tba := roundq4 ((rg.map fun r => r.total_basal).sum)
  let aucd := roundq4 ((rg.map fun r => (r.glucose - bg) * r.time_interval).sum)
  let auca := roundq4 ((rg.map fun r => |(r.glucose - bg) * r.time_interval|).sum)
  let fr := qminList (rg.map fun r => r.t)
  let lr := qmaxList (rg.map fun r => r.t)
  { total_carbs := tc
    total_bolus := tb
    total_basal := tba
    AUC_delta_glucose := aucd
    AUC_abs_delta_glucose := auca
    first_reading := fr
    last_reading := lr
    period_length := (lr - fr) + 1 / 12
    AoC := tc + COB_start - COB_end
    AUC_novorapid := tb + IOB_novorapid_start - IOB_novorapid_end
    AUC_tresiba := tba + IOB_tresiba_start - IOB_tresiba_end }

/-- IEEE-style value of a pandas float column entry: finite, infinite or
NaN. -/
inductive PFloat where
  | fin : ℝ → PFloat
  | inf : PFloat
  | ninf : PFloat
  | nan : PFloat

/-- Pandas/NumPy float division: a zero denominator silently yields
inf, -inf or NaN instead of raising. -/
noncomputable def pdiv (x y : ℝ) : PFloat :=
  if y = 0 then (if x = 0 then PFloat.nan else if 0 < x then PFloat.inf else PFloat.ninf)
  else PFloat.fin (x / y)

/-- Shared numerator of both sensitivity columns of `process_period`:
`AoC/BW - GEZI*60*AUC_delta*CONVERSION/1000 - V_g/BW*(glucose_end -
glucose_start)*CONVERSION/1000`. -/
noncomputable def sens_numerator (rows : List PRow)
    (use_period_start_glucose_as_basal : Bool) (basal_glucose : ℚ) (g : ℚ) : ℝ :=
  let agg := process_period_group rows use_period_start_glucose_as_basal basal_glucose g
  let glucose_start := rows.headI.glucose
  let glucose_end := (rows.getLastD default).glucose
  (agg.AoC : ℝ) / (BW : ℝ)
    - (GEZI : ℝ) * 60 * (agg.AUC_delta_glucose : ℝ) * (CONVERSION : ℝ) / 1000
    - Vg_period / (BW : ℝ) * ((glucose_end : ℝ) - (glucose_start : ℝ)) * (CONVERSION : ℝ) / 1000

/-- Denominator of `insulin_sensitivity_article`:
`1/(CL*60) * (AUC_novorapid + AUC_tresiba) * AUC_abs * CONVERSION / 1000 /
period_length`. -/
noncomputable def sens_den_article (rows : List PRow)
    (use_period_start_glucose_as_basal : Bool) (basal_glucose : ℚ) (g : ℚ) : ℝ :=
  let agg := process_period_group rows use_period_start_glucose_as_basal basal_glucose g
  1 / (CL_period * 60) * ((agg.AUC_novorapid : ℝ) + (agg.AUC_tresiba : ℝ))
    * (agg.AUC_abs_delta_glucose : ℝ) * (CONVERSION : ℝ) / 1000 / (agg.period_length : ℝ)

/-- Denominator of `insulin_sensitivity_Nadia`: `1/CL * AUC_novorapid *
AUC_abs * CONVERSION / 1000 / period_length`. -/
noncomputable def sens_den_nadia (rows : List PRow)
    (use_period_start_glucose_as_basal : Bool) (basal_glucose : ℚ) (g : ℚ) : ℝ :=
  let agg := process_period_group rows use_period_start_glucose_as_basal basal_glucose g
  1 / CL_period * (agg.AUC_novorapid : ℝ)
    * (agg.AUC_abs_delta_glucose : ℝ) * (CONVERSION : ℝ) / 1000 / (agg.period_length : ℝ)

/-- Column `insulin_sensitivity_article` of `process_period` for group `g`,
evaluated with pandas division semantics. -/
noncomputable def insulin_sensitivity_article (rows : List PRow)
    (use_period_start_glucose_as_basal : Bool) (basal_glucose : ℚ) (g : ℚ) : PFloat :=
  pdiv (sens_numerator rows use_period_start_glucose_as_basal basal_glucose g)
    (sens_den_article rows use_period_start_glucose_as_basal basal_glucose g)

/-- Column `insulin_sensitivity_Nadia` of `process_period`: same numerator,
denominator normalized by `1/CL` and using only fast-acting insulin. -/
noncomputable def insulin_sensitivity_nadia (rows : List PRow)
    (use_period_start_glucose_as_basal : Bool) (basal_glucose : ℚ) (g : ℚ) : PFloat :=
  pdiv (sens_numerator rows use_period_start_glucose_as_basal basal_glucose g)
    (sens_den_nadia rows use_period_start_glucose_as_basal basal_glucose g)

lemma pdiv_zero_denom (x : ℝ) :
    pdiv x 0 = PFloat.nan ∨ pdiv x 0 = PFloat.inf ∨ pdiv x 0 = PFloat.ninf := by
  unfold pdiv
  rw [if_pos rfl]
  split_ifs <;> simp

lemma pdiv_zero_denom_pos_num {x : ℝ} (hx : 0 < x) : pdiv x 0 = PFloat.inf := by
  unfold pdiv
  rw [if_pos rfl, if_neg (ne_of_gt hx), if_pos hx]

/-- Unfloored bi-exponential on-board fraction (the expression inside the
`max(0, _)` of `insulin_on_board` for positive elapsed time). -/
noncomputable def iob_raw (k_abs k_elim t : ℝ) : ℝ :=
  (k_abs * exp (-k_elim * t) - k_elim * exp (-k_abs * t)) / (k_abs - k_elim)

lemma iob_raw_zero {k_abs k_elim : ℝ} (h : k_elim < k_abs) : iob_raw k_abs k_elim 0 = 1 := by
  unfold iob_raw
  simp only [mul_zero, neg_zero, exp_zero, mul_one]
  exact div_self (by linarith)

lemma iob_raw_continuous (k_abs k_elim : ℝ) : Continuous (iob_raw k_abs k_elim) := by
  unfold iob_raw
  exact ((continuous_const.mul (Real.continuous_exp.comp
      (continuous_const.mul continuous_id))).sub
    (continuous_const.mul (Real.continuous_exp.comp
      (continuous_const.mul continuous_id)))).div_const _

lemma iob_raw_hasDerivAt (k_abs k_elim t : ℝ) :
    HasDerivAt (iob_raw k_abs k_elim)
      ((k_abs * (exp (-k_elim * t) * -k_elim) - k_elim * (exp (-k_abs * t) * -k_abs))
        / (k_abs - k_elim)) t := by
  have h₁ : HasDerivAt (fun x : ℝ => -k_elim * x) (-k_elim) t := by
    simpa using (hasDerivAt_id t).const_mul (-k_elim)
  have h₂ : HasDerivAt (fun x : ℝ => -k_abs * x) (-k_abs) t := by
    simpa using (hasDerivAt_id t).const_mul (-k_abs)
  have h₃ : HasDerivAt (fun x : ℝ => exp (-k_elim * x)) (exp (-k_elim * t) * -k_elim) t :=
    (Real.hasDerivAt_exp (-k_elim * t)).comp t h₁
  have h₄ : HasDerivAt (fun x : ℝ => exp (-k_abs * x)) (exp (-k_abs * t) * -k_abs) t :=
    (Real.hasDerivAt_exp (-k_abs * t)).comp t h₂
  exact ((h₃.const_mul k_abs).sub (h₄.const_mul k_elim)).div_const _

lemma iob_raw_strictAntiOn {k_abs k_elim : ℝ} (hke : 0 < k_elim) (hka : k_elim < k_abs) :
    StrictAntiOn (iob_raw k_abs k_elim) (Ici 0) := by
  have hka0 : 0 < k_abs := lt_trans hke hka
  apply strictAntiOn_of_deriv_neg (convex_Ici 0)
    ((iob_raw_continuous k_abs k_elim).continuousOn)
  intro x hx
  rw [interior_Ici] at hx
  rw [(iob_raw_hasDerivAt k_abs k_elim x).deriv]
  apply div_neg_of_neg_of_pos _ (by linarith)
  have hexp : exp (-k_abs * x) < exp (-k_elim * x) :=
    exp_lt_exp_of_lt (by nlinarith [mem_Ioi.mp hx])
  nlinarith [mul_lt_mul_of_pos_left hexp (mul_pos hka0 hke)]

lemma iob_raw_pos {k_abs k_elim : ℝ} (hke : 0 < k_elim) (hka : k_elim < k_abs)
    {t : ℝ} (ht : 0 ≤ t) : 0 < iob_raw k_abs k_elim t := by
  have hka0 : 0 < k_abs := lt_trans hke hka
  have hexp : exp (-k_abs * t) ≤ exp (-k_elim * t) :=
    exp_le_exp_of_le (by nlinarith)
  apply div_pos _ (by linarith)
  nlinarith [exp_pos (-k_abs * t), exp_pos (-k_elim * t),
    mul_le_mul_of_nonneg_left hexp hka0.le]

lemma iob_raw_lt_one {k_abs k_elim : ℝ} (hke : 0 < k_elim) (hka : k_elim < k_abs)
    {t : ℝ} (ht : 0 < t) : iob_raw k_abs k_elim t < 1 := by
  have h := iob_raw_strictAntiOn hke hka (left_mem_Ici) (mem_Ici.mpr ht.le) ht
  rwa [iob_raw_zero hka] at h

lemma iob_kernel_eq_raw {k_abs k_elim : ℝ} (hke : 0 < k_elim) (hka : k_elim < k_abs)
    {t : ℝ} (ht : 0 < t) : iob_kernel k_abs k_elim t = iob_raw k_abs k_elim t := by
  unfold iob_kernel
  rw [if_neg (not_le.mpr ht)]
  exact max_eq_right (iob_raw_pos hke hka ht.le).le

lemma iob_kernel_nonneg (k_abs k_elim t : ℝ) : 0 ≤ iob_kernel k_abs k_elim t := by
  unfold iob_kernel
  split_ifs
  · exact le_refl 0
  · exact le_max_left 0 _

lemma iob_kernel_le_one {k_abs k_elim : ℝ} (hke : 0 < k_elim) (hka : k_elim < k_abs)
    (t : ℝ) : iob_kernel k_abs k_elim t ≤ 1 := by
  by_cases ht : t ≤ 0
  · rw [iob_kernel_nonpos _ _ ht]; norm_num
  · rw [iob_kernel_eq_raw hke hka (not_le.mp ht)]
    exact (iob_raw_lt_one hke hka (not_le.mp ht)).le

lemma iob_kernel_strictAntiOn {k_abs k_elim : ℝ} (hke : 0 < k_elim) (hka : k_elim < k_abs) :
    StrictAntiOn (iob_kernel k_abs k_elim) (Ioi 0) := by
  intro a ha b hb hab
  rw [iob_kernel_eq_raw hke hka (mem_Ioi.mp ha), iob_kernel_eq_raw hke hka (mem_Ioi.mp hb)]
  exact iob_raw_strictAntiOn hke hka (mem_Ici.mpr (mem_Ioi.mp ha).le)
    (mem_Ici.mpr (mem_Ioi.mp hb).le) hab

lemma iob_kernel_tendsto_one {k_abs k_elim : ℝ} (hke : 0 < k_elim) (hka : k_elim < k_abs) :
    Tendsto (iob_kernel k_abs k_elim) (nhdsWithin 0 (Ioi 0)) (nhds 1) := by
  have h₀ : Tendsto (iob_raw k_abs k_elim) (nhdsWithin 0 (Ioi 0)) (nhds 1) := by
    have hc := (iob_raw_continuous k_abs k_elim).tendsto 0
    rw [iob_raw_zero hka] at hc
    exact hc.mono_left nhdsWithin_le_nhds
  apply h₀.congr'
  exact Filter.eventuallyEq_of_mem self_mem_nhdsWithin
    fun t ht => (iob_kernel_eq_raw hke hka (mem_Ioi.mp ht)).symm

lemma carbs_on_board_strictAntiOn {c : ℝ} (hc : 0 < c) :
    StrictAntiOn (fun t => carbs_on_board t c K_A F_MAX LAG_TIME) (Ioi 0) := by
  intro a ha b hb hab
  simp only [carbs_on_board_pos_time c (mem_Ioi.mp ha),
    carbs_on_board_pos_time c (mem_Ioi.mp hb)]
  have : exp (-(0.6) * b) < exp (-(0.6) * a) := exp_lt_exp_of_lt (by nlinarith)
  exact mul_lt_mul_of_pos_left this hc

lemma carbs_on_board_tendsto_zero (c : ℝ) :
    Tendsto (fun t => carbs_on_board t c K_A F_MAX LAG_TIME) atTop (nhds 0) := by
  have h₁ : Tendsto (fun t : ℝ => -(0.6) * t) atTop atBot :=
    tendsto_id.const_mul_atTop_of_neg (by norm_num)
  have h₂ : Tendsto (fun t : ℝ => c * exp (-(0.6) * t)) atTop (nhds 0) := by
    have := (Real.tendsto_exp_atBot.comp h₁).const_mul c
    simpa using this
  apply h₂.congr'
  exact (Filter.eventually_gt_atTop (0 : ℝ)).mono
    fun t ht => (carbs_on_board_pos_time c ht).symm

lemma carbs_on_board_tendsto_right (c : ℝ) :
    Tendsto (fun t => carbs_on_board t c K_A F_MAX LAG_TIME)
      (nhdsWithin 0 (Ioi 0)) (nhds c) := by
  have h₂ : Tendsto (fun t : ℝ => c * exp (-(0.6) * t)) (nhdsWithin 0 (Ioi 0)) (nhds c) := by
    have hc : Continuous (fun t : ℝ => c * exp (-(0.6) * t)) :=
      continuous_const.mul (Real.continuous_exp.comp (continuous_const.mul continuous_id))
    have := hc.tendsto 0
    simpa using this.mono_left nhdsWithin_le_nhds
  apply h₂.congr'
  exact Filter.eventuallyEq_of_mem self_mem_nhdsWithin
    fun t ht => (carbs_on_board_pos_time c (mem_Ioi.mp ht)).symm

/-- Claim C1, counterexample: `carbs_on_board(0, 30)` with the default
constants returns 0, not the 30 grams the claim requires at `t = 0`
(the source special-cases `time == 0` to 0). -/
theorem cob_zero_time_counterexample :
    carbs_on_board 0 30 K_A F_MAX LAG_TIME = 0 ∧ (0 : ℝ) ≠ 30 := by
  exact ⟨carbs_on_board_zero_time 30 K_A F_MAX LAG_TIME, by norm_num⟩

/-- Claim C1 (amended): for a single carbohydrate event of magnitude
`c > 0` grams with the default kinetic constants, `carbs_on_board`
returns 0 at elapsed time 0 (the code's `time == 0` special case), is
strictly decreasing on `t > 0`, tends to 0 as `t → ∞`, and has
right-limit `c` at 0 (the no-absorption-yet mass is attained only in the
limit). -/
theorem cob_single_event_profile (c : ℝ) (hc : 0 < c) :
    carbs_on_board 0 c K_A F_MAX LAG_TIME = 0 ∧
    StrictAntiOn (fun t => carbs_on_board t c K_A F_MAX LAG_TIME) (Ioi 0) ∧
    Tendsto (fun t => carbs_on_board t c K_A F_MAX LAG_TIME) atTop (nhds 0) ∧
    Tendsto (fun t => carbs_on_board t c K_A F_MAX LAG_TIME) (nhdsWithin 0 (Ioi 0)) (nhds c) :=
  ⟨carbs_on_board_zero_time c K_A F_MAX LAG_TIME, carbs_on_board_strictAntiOn hc,
    carbs_on_board_tendsto_zero c, carbs_on_board_tendsto_right c⟩

/-- Witness for C1's amended theorem at `c = 30`. -/
theorem cob_single_event_profile_witness :
    (0 : ℝ) < 30 ∧ carbs_on_board 0 30 K_A F_MAX LAG_TIME = 0 :=
  ⟨by norm_num, (cob_single_event_profile 30 (by norm_num)).1⟩

/-- Claim C2, counterexample: the carbohydrate on-board function at a
negative elapsed time returns the full carbohydrate mass, not 0: the
absorbed fraction is clamped to 0 and multiplied out as
`total_carbs * (f_max - 0)`. -/
theorem cob_negative_time_counterexample :
    carbs_on_board (-1) 30 K_A F_MAX LAG_TIME = 30 ∧ (30 : ℝ) ≠ 0 :=
  ⟨carbs_on_board_neg_time 30 (by norm_num), by norm_num⟩

/-- Claim C2 (amended): for every `t ≤ 0` both insulin kernel functions
return exactly 0 for both recognized kinds; the carbohydrate on-board
function returns 0 at `t = 0` but returns the full mass `c` for `t < 0`
(with the default constants). -/
theorem kernels_nonpositive_time (t c : ℝ) (ht : t ≤ 0) :
    active_insulin t "novorapid" = Except.ok 0 ∧
    active_insulin t "tresiba" = Except.ok 0 ∧
    insulin_on_board t "novorapid" = Except.ok 0 ∧
    insulin_on_board t "tresiba" = Except.ok 0 ∧
    carbs_on_board 0 c K_A F_MAX LAG_TIME = 0 ∧
    (t < 0 → carbs_on_board t c K_A F_MAX LAG_TIME = c) := by
  refine ⟨?_, ?_, ?_, ?_, carbs_on_board_zero_time c K_A F_MAX LAG_TIME,
    fun h => carbs_on_board_neg_time c h⟩ <;>
    simp [active_insulin, insulin_on_board, aib_kernel_nonpos _ _ ht,
      iob_kernel_nonpos _ _ ht]

/-- Witness for C2's amended theorem at `t = -1`, `c = 30`. -/
theorem kernels_nonpositive_time_witness :
    (-1 : ℝ) ≤ 0 ∧ active_insulin (-1) "novorapid" = Except.ok 0 :=
  ⟨by norm_num, (kernels_nonpositive_time (-1) 30 (by norm_num)).1⟩

/-- Claim C9: the height-based insulin clearance for height 170 cm,
weight 53 kg, age 10, sex female is exactly
`1.2 * (1 + 0.4 * 0) * 0.85 = 1.02` L/min (the age adjustment does not
trigger at age 10) and lies within the clip bounds 0.5 and 3.0 L/min. -/
theorem clearance_scenario_height_female :
    calculate_insulin_clearance 170 (some 53) (some 10) "female" "height_based"
      = Except.ok 1.02 ∧ (0.5 : ℝ) ≤ 1.02 ∧ (1.02 : ℝ) ≤ 3.0 := by
  refine ⟨?_, by norm_num, by norm_num⟩
  simp only [calculate_insulin_clearance]
  norm_num

/-- Claim C10: for both recognized insulin kinds the on-board kernel is
always within the closed interval from 0 to 1, vanishes for `t ≤ 0`,
is strictly decreasing on `t > 0`, tends to 1 as `t → 0⁺`, and is what
`insulin_on_board` returns for the corresponding kind strings. -/
theorem iob_kernel_unit_fraction :
    (∀ t : ℝ, 0 ≤ iob_kernel K_ABS_NOVORAPID K_ELIM_NOVORAPID t ∧
      iob_kernel K_ABS_NOVORAPID K_ELIM_NOVORAPID t ≤ 1 ∧
      (t ≤ 0 → iob_kernel K_ABS_NOVORAPID K_ELIM_NOVORAPID t = 0)) ∧
    StrictAntiOn (iob_kernel K_ABS_NOVORAPID K_ELIM_NOVORAPID) (Ioi 0) ∧
    Tendsto (iob_kernel K_ABS_NOVORAPID K_ELIM_NOVORAPID) (nhdsWithin 0 (Ioi 0)) (nhds 1) ∧
    (∀ t : ℝ, insulin_on_board t "novorapid"
      = Except.ok (iob_kernel K_ABS_NOVORAPID K_ELIM_NOVORAPID t)) ∧
    (∀ t : ℝ, 0 ≤ iob_kernel K_ABS_TRESIBA K_ELIM_TRESIBA t ∧
      iob_kernel K_ABS_TRESIBA K_ELIM_TRESIBA t ≤ 1 ∧
      (t ≤ 0 → iob_kernel K_ABS_TRESIBA K_ELIM_TRESIBA t = 0)) ∧
    StrictAntiOn (iob_kernel K_ABS_TRESIBA K_ELIM_TRESIBA) (Ioi 0) ∧
    Tendsto (iob_kernel K_ABS_TRESIBA K_ELIM_TRESIBA) (nhdsWithin 0 (Ioi 0)) (nhds 1) ∧
    (∀ t : ℝ, insulin_on_board t "tresiba"
      = Except.ok (iob_kernel K_ABS_TRESIBA K_ELIM_TRESIBA t)) := by
  have hn₁ : (0 : ℝ) < K_ELIM_NOVORAPID := by norm_num [K_ELIM_NOVORAPID]
  have hn₂ : K_ELIM_NOVORAPID < K_ABS_NOVORAPID := by
    norm_num [K_ELIM_NOVORAPID, K_ABS_NOVORAPID]
  have ht₁ : (0 : ℝ) < K_ELIM_TRESIBA := by norm_num [K_ELIM_TRESIBA]
  have ht₂ : K_ELIM_TRESIBA < K_ABS_TRESIBA := by
    norm_num [K_ELIM_TRESIBA, K_ABS_TRESIBA]
  refine ⟨fun t => ⟨iob_kernel_nonneg _ _ t, iob_kernel_le_one hn₁ hn₂ t,
      fun h => iob_kernel_nonpos _ _ h⟩,
    iob_kernel_strictAntiOn hn₁ hn₂, iob_kernel_tendsto_one hn₁ hn₂,
    fun t => by simp [insulin_on_board],
    fun t => ⟨iob_kernel_nonneg _ _ t, iob_kernel_le_one ht₁ ht₂ t,
      fun h => iob_kernel_nonpos _ _ h⟩,
    iob_kernel_strictAntiOn ht₁ ht₂, iob_kernel_tendsto_one ht₁ ht₂,
    fun t => by simp [insulin_on_board]⟩

/-- Witness for C10's theorem at `t = -2`: discharges the inner
nonpositive-time hypothesis at a concrete input. -/
theorem iob_kernel_unit_fraction_witness :
    (-2 : ℝ) ≤ 0 ∧ iob_kernel K_ABS_NOVORAPID K_ELIM_NOVORAPID (-2) = 0 :=
  ⟨by norm_num, (iob_kernel_unit_fraction.1 (-2)).2.2 (by norm_num)⟩

/-- Claim C8: every configuration error fails with an error value and no
result: an unrecognized substance kind in either kernel function, an
unknown estimation method in either estimator, and a missing weight for
the BSA, allometric, TBW-based, BSA-based and weight-based methods. -/
theorem config_errors_fail :
    (∀ (t : ℝ) (ty : String), ty ≠ "novorapid" → ty ≠ "tresiba" →
      (∃ m, active_insulin t ty = Except.error m) ∧
      (∃ m, insulin_on_board t ty = Except.error m)) ∧
    (∀ (h : ℝ) (w a : Option ℝ) (s m : String),
      m ≠ "height_based" → m ≠ "bsa" → m ≠ "allometric" →
      ∃ e, calculate_insulin_clearance h w a s m = Except.error e) ∧
    (∀ (h : ℝ) (a : Option ℝ) (s : String),
      (∃ e, calculate_insulin_clearance h none a s "bsa" = Except.error e) ∧
      (∃ e, calculate_insulin_clearance h none a s "allometric" = Except.error e)) ∧
    (∀ (h : ℝ) (w a : Option ℝ) (s m : String),
      m ≠ "tbw_based" → m ≠ "bsa_based" → m ≠ "weight_based" →
      ∃ e, calculate_glucose_volume_distribution h w a s m = Except.error e) ∧
    (∀ (h : ℝ) (a : Option ℝ) (s : String),
      (∃ e, calculate_glucose_volume_distribution h none a s "tbw_based" = Except.error e) ∧
      (∃ e, calculate_glucose_volume_distribution h none a s "bsa_based" = Except.error e) ∧
      (∃ e, calculate_glucose_volume_distribution h none a s "weight_based" = Except.error e)) := by
  refine ⟨?_, ?_, ?_, ?_, ?_⟩
  · intro t ty h₁ h₂
    exact ⟨⟨"Type must be novorapid or tresiba",
        by simp [active_insulin, h₁, h₂]⟩,
      ⟨"Type must be novorapid or tresiba",
        by simp [insulin_on_board, h₁, h₂]⟩⟩
  · intro h w a s m h₁ h₂ h₃
    exact ⟨"Method must be height_based, bsa, or allometric",
      by simp [calculate_insulin_clearance, h₁, h₂, h₃]⟩
  · intro h a s
    exact ⟨⟨"Weight required for BSA-based clearance calculation",
        by simp [calculate_insulin_clearance]⟩,
      ⟨"Weight required for allometric clearance calculation",
        by simp [calculate_insulin_clearance]⟩⟩
  · intro h w a s m h₁ h₂ h₃
    exact ⟨"Method must be tbw_based, bsa_based, or weight_based",
      by simp [calculate_glucose_volume_distribution, h₁, h₂, h₃]⟩
  · intro h a s
    exact ⟨⟨"Weight required for TBW-based volume calculation",
        by simp [calculate_glucose_volume_distribution]⟩,
      ⟨"Weight required for BSA-based volume calculation",
        by simp [calculate_glucose_volume_distribution]⟩,
      ⟨"Weight required for weight-based volume calculation",
        by simp [calculate_glucose_volume_distribution]⟩⟩

/-- Witness for C8's theorem: the unknown kind `humalog` and the unknown
method `linear` are rejected at concrete inputs. -/
theorem config_errors_fail_witness :
    ("humalog" : String) ≠ "novorapid" ∧ ("humalog" : String) ≠ "tresiba" ∧
    (∃ m, active_insulin 1 "humalog" = Except.error m) ∧
    (∃ e, calculate_insulin_clearance 170 (some 53) (some 10) "male" "linear"
      = Except.error e) := by
  refine ⟨by simp, by simp, ?_, ?_⟩
  · exact (config_errors_fail.1 1 "humalog" (by simp) (by simp)).1
  · exact config_errors_fail.2.1 170 (some 53) (some 10) "male" "linear"
      (by simp) (by simp) (by simp)

/-- Claim C6: in each engine pass, the trajectory at a sample time is the
sum over events of `kernel(dt) * magnitude`, gated exactly by the kind's
validity window: `0 < dt ≤ 6` hours for the fast pass, `0 < dt ≤ 96`
hours for the long-acting pass, and every strictly later sample with no
cap for the carbohydrate pass; samples outside the window (including the
event's own sample, where the kernel vanishes at 0) receive zero. -/
theorem engine_validity_windows (rows : List Sample)
    (hb : ∀ e ∈ rows, 0 ≤ total_bolus e)
    (hl : ∀ e ∈ rows, 0 ≤ total_basal e)
    (hc : ∀ e ∈ rows, 0 ≤ total_carbs e) (τ : ℚ) :
    (calculate_active_insulin_and_carbs_timeseries rows).IOB_novorapid τ
        = (rows.map fun e =>
            if e.t < τ ∧ τ - e.t ≤ 6 then
              iob_kernel K_ABS_NOVORAPID K_ELIM_NOVORAPID ((τ - e.t : ℚ) : ℝ)
                * (total_bolus e : ℝ)
            else 0).sum ∧
    (calculate_active_insulin_and_carbs_timeseries rows).IOB_tresiba τ
        = (rows.map fun e =>
            if e.t < τ ∧ τ - e.t ≤ 96 then
              iob_kernel K_ABS_TRESIBA K_ELIM_TRESIBA ((τ - e.t : ℚ) : ℝ)
                * (total_basal e : ℝ)
            else 0).sum ∧
    (calculate_active_insulin_and_carbs_timeseries rows).COB τ
        = (rows.map fun e =>
            if e.t < τ then
              carbs_on_board ((τ - e.t : ℚ) : ℝ) (total_carbs e : ℝ) K_A F_MAX LAG_TIME
            else 0).sum := by
  refine ⟨?_, ?_, ?_⟩
  · rw [show (calculate_active_insulin_and_carbs_timeseries rows).IOB_novorapid
        = run_pass rows total_bolus bolus_cell from rfl,
      run_pass_eq_sum_of_nonneg rows total_bolus bolus_cell bolus_cell_zero_mass hb τ]
    exact congrArg _ (List.map_congr_left fun e _ => bolus_cell_window e.t (total_bolus e) τ)
  · rw [show (calculate_active_insulin_and_carbs_timeseries rows).IOB_tresiba
        = run_pass rows total_basal basal_cell from rfl,
      run_pass_eq_sum_of_nonneg rows total_basal basal_cell basal_cell_zero_mass hl τ]
    exact congrArg _ (List.map_congr_left fun e _ => basal_cell_window e.t (total_basal e) τ)
  · rw [show (calculate_active_insulin_and_carbs_timeseries rows).COB
        = run_pass rows total_carbs carb_cell from rfl,
      run_pass_eq_sum_of_nonneg rows total_carbs carb_cell carb_cell_zero_mass hc τ]
    exact congrArg _ (List.map_congr_left fun e _ => carb_cell_window e.t (total_carbs e) τ)

/-- Concrete one-event grid used by witnesses: a single 1-unit bolus at
time 0. -/
def witness_rows : List Sample := [⟨0, 5, 1, 0, 0, 0, 0⟩]

/-- Witness for C6's theorem on a one-event grid. -/
theorem engine_validity_windows_witness :
    (∀ e ∈ witness_rows, 0 ≤ total_bolus e) ∧
    (calculate_active_insulin_and_carbs_timeseries witness_rows).IOB_novorapid 1
        = (witness_rows.map fun e =>
            if e.t < 1 ∧ 1 - e.t ≤ 6 then
              iob_kernel K_ABS_NOVORAPID K_ELIM_NOVORAPID ((1 - e.t : ℚ) : ℝ)
                * (total_bolus e : ℝ)
            else 0).sum :=
  ⟨by norm_num [witness_rows, total_bolus],
    (engine_validity_windows witness_rows
      (by norm_num [witness_rows, total_bolus])
      (by norm_num [witness_rows, total_basal])
      (by norm_num [witness_rows, total_carbs]) 1).1⟩

/-- Claim C5: superposition linearity.  Running the engine on two event
lists over the same sample grid with disjoint event timestamps and
summing the trajectories sample-wise equals running it once on the
merged (union) series — exactly, hence within any floating-point
tolerance. -/
theorem engine_superposition (rows₁ rows₂ : List Sample)
    (htimes : List.Forall₂ (fun a b => a.t = b.t) rows₁ rows₂)
    (h₁ : ∀ e ∈ rows₁, 0 ≤ e.carb_bolus ∧ 0 ≤ e.correction_bolus ∧ 0 ≤ e.extended_bolus
      ∧ 0 ≤ e.basal ∧ 0 ≤ e.carbs)
    (h₂ : ∀ e ∈ rows₂, 0 ≤ e.carb_bolus ∧ 0 ≤ e.correction_bolus ∧ 0 ≤ e.extended_bolus
      ∧ 0 ≤ e.basal ∧ 0 ≤ e.carbs)
    (hdisj : ∀ p ∈ rows₁.zip rows₂, ¬(has_event p.1 ∧ has_event p.2)) (τ : ℚ) :
    (calculate_active_insulin_and_carbs_timeseries
        (List.zipWith merge_sample rows₁ rows₂)).IOB_novorapid τ
      = (calculate_active_insulin_and_carbs_timeseries rows₁).IOB_novorapid τ
        + (calculate_active_insulin_and_carbs_timeseries rows₂).IOB_novorapid τ ∧
    (calculate_active_insulin_and_carbs_timeseries
        (List.zipWith merge_sample rows₁ rows₂)).IOB_tresiba τ
      = (calculate_active_insulin_and_carbs_timeseries rows₁).IOB_tresiba τ
        + (calculate_active_insulin_and_carbs_timeseries rows₂).IOB_tresiba τ ∧
    (calculate_active_insulin_and_carbs_timeseries
        (List.zipWith merge_sample rows₁ rows₂)).COB τ
      = (calculate_active_insulin_and_carbs_timeseries rows₁).COB τ
        + (calculate_active_insulin_and_carbs_timeseries rows₂).COB τ := by
  have hb₁ : ∀ e ∈ rows₁, 0 ≤ total_bolus e := fun e he => by
    obtain ⟨ha, hb, hc, _, _⟩ := h₁ e he
    unfold total_bolus
    linarith
  have hb₂ : ∀ e ∈ rows₂, 0 ≤ total_bolus e := fun e he => by
    obtain ⟨ha, hb, hc, _, _⟩ := h₂ e he
    unfold total_bolus
    linarith
  have hl₁ : ∀ e ∈ rows₁, 0 ≤ total_basal e := fun e he => (h₁ e he).2.2.2.1
  have hl₂ : ∀ e ∈ rows₂, 0 ≤ total_basal e := fun e he => (h₂ e he).2.2.2.1
  have hcb₁ : ∀ e ∈ rows₁, 0 ≤ total_carbs e := fun e he => (h₁ e he).2.2.2.2
  have hcb₂ : ∀ e ∈ rows₂, 0 ≤ total_carbs e := fun e he => (h₂ e he).2.2.2.2
  refine ⟨?_, ?_, ?_⟩
  · exact run_pass_merge bolus_cell bolus_cell_add total_bolus
      (fun a b => by simp [total_bolus, merge_sample]; ring)
      rows₁ rows₂ htimes hb₁ hb₂ τ
  · exact run_pass_merge basal_cell basal_cell_add total_basal
      (fun a b => by simp [total_basal, merge_sample])
      rows₁ rows₂ htimes hl₁ hl₂ τ
  · exact run_pass_merge carb_cell carb_cell_add total_carbs
      (fun a b => by simp [total_carbs, merge_sample])
      rows₁ rows₂ htimes hcb₁ hcb₂ τ

/-- First event list for the superposition witness: a 2-unit bolus at
time 0 on a two-sample grid. -/
def super_rows₁ : List Sample := [⟨0, 5, 2, 0, 0, 0, 0⟩, ⟨1, 6, 0, 0, 0, 0, 0⟩]

/-- Second event list for the superposition witness: 30 g of carbs at
time 1 on the same grid. -/
def super_rows₂ : List Sample := [⟨0, 5, 0, 0, 0, 0, 0⟩, ⟨1, 6, 0, 0, 0, 0, 30⟩]

/-- Witness for C5's theorem on two concrete disjoint event lists. -/
theorem engine_superposition_witness :
    List.Forall₂ (fun a b => a.t = b.t) super_rows₁ super_rows₂ ∧
    (∀ p ∈ super_rows₁.zip super_rows₂, ¬(has_event p.1 ∧ has_event p.2)) ∧
    (calculate_active_insulin_and_carbs_timeseries
        (List.zipWith merge_sample super_rows₁ super_rows₂)).COB 1
      = (calculate_active_insulin_and_carbs_timeseries super_rows₁).COB 1
        + (calculate_active_insulin_and_carbs_timeseries super_rows₂).COB 1 := by
  refine ⟨List.Forall₂.cons rfl (List.Forall₂.cons rfl List.Forall₂.nil), ?_, ?_⟩
  · norm_num [super_rows₁, super_rows₂, has_event, total_bolus, total_basal, total_carbs]
  · exact (engine_superposition super_rows₁ super_rows₂
      (List.Forall₂.cons rfl (List.Forall₂.cons rfl List.Forall₂.nil))
      (by norm_num [super_rows₁])
      (by norm_num [super_rows₂])
      (by norm_num [super_rows₁, super_rows₂, has_event, total_bolus, total_basal,
        total_carbs]) 1).2.2

/-- Input schema of the engine per the data model. -/
def BASE_COLS : List String :=
  ["DateTime_rounded", "glucose", "carb_bolus", "correction_bolus",
   "extended_bolus", "basal", "carbs"]

/-- Concrete input for the column counterexample: one bolus event, no
basal event. -/
def c7_rows : List Sample := [⟨0, 6, 1, 0, 0, 0, 0⟩]

/-- Claim C7, counterexample: the engine's output schema also contains the
helper column `total_bolus` (and `total_carbs`, `total_basal`), which is
not among the claim's allowed additions, and on an input with no basal
event the `total_active_insulin` column is never created (it is assigned
only inside the basal loop). -/
theorem engine_columns_counterexample :
    "total_bolus" ∈ engineColumns BASE_COLS c7_rows ∧
    "total_bolus" ∉
      BASE_COLS ++ ["IOB_novorapid", "IOB_tresiba", "COB", "total_active_insulin"] ∧
    "total_active_insulin" ∉ engineColumns BASE_COLS c7_rows := by
  have hfil : (c7_rows.filter fun r => decide (0 < total_basal r)) = [] := by
    norm_num [c7_rows, total_basal, List.filter_cons]
  refine ⟨?_, by simp [BASE_COLS], ?_⟩ <;>
    simp [engineColumns, hfil, addCol, BASE_COLS]

lemma addCol_not_mem {cols : List String} {c : String} (h : c ∉ cols) :
    addCol cols c = cols ++ [c] := if_neg h

/-- Claim C7 (amended): when the input schema does not already contain
them, the engine appends exactly the columns `total_bolus`,
`total_carbs`, `total_basal`, `IOB_novorapid`, `IOB_tresiba`, `COB`, in
this order, and appends `total_active_insulin` exactly when some row
carries a positive basal dose; the input rows themselves are returned
unmodified. -/
theorem engine_columns_amended (inputCols : List String) (rows : List Sample)
    (h : ∀ c ∈ (["total_bolus", "total_carbs", "total_basal", "IOB_novorapid",
      "IOB_tresiba", "COB", "total_active_insulin"] : List String), c ∉ inputCols) :
    engineColumns inputCols rows
      = inputCols ++ ["total_bolus", "total_carbs", "total_basal",
          "IOB_novorapid", "IOB_tresiba", "COB"]
        ++ (if ∃ r ∈ rows, 0 < total_basal r then ["total_active_insulin"] else []) ∧
    (calculate_active_insulin_and_carbs_timeseries rows).rows = rows := by
  refine ⟨?_, rfl⟩
  have h₁ : "total_bolus" ∉ inputCols := h _ (by simp)
  have h₂ : "total_carbs" ∉ inputCols := h _ (by simp)
  have h₃ : "total_basal" ∉ inputCols := h _ (by simp)
  have h₄ : "IOB_novorapid" ∉ inputCols := h _ (by simp)
  have h₅ : "IOB_tresiba" ∉ inputCols := h _ (by simp)
  have h₆ : "COB" ∉ inputCols := h _ (by simp)
  have h₇ : "total_active_insulin" ∉ inputCols := h _ (by simp)
  have e₁ : addCol inputCols "total_bolus" = inputCols ++ ["total_bolus"] :=
    addCol_not_mem h₁
  have e₂ : addCol (inputCols ++ ["total_bolus"]) "total_carbs"
      = inputCols ++ ["total_bolus"] ++ ["total_carbs"] :=
    addCol_not_mem (by simp [h₂])
  have e₃ : addCol (inputCols ++ ["total_bolus"] ++ ["total_carbs"]) "total_basal"
      = inputCols ++ ["total_bolus"] ++ ["total_carbs"] ++ ["total_basal"] :=
    addCol_not_mem (by simp [h₃])
  have e₄ : addCol (inputCols ++ ["total_bolus"] ++ ["total_carbs"] ++ ["total_basal"])
        "IOB_novorapid"
      = inputCols ++ ["total_bolus"] ++ ["total_carbs"] ++ ["total_basal"]
        ++ ["IOB_novorapid"] :=
    addCol_not_mem (by simp [h₄])
  have e₅ : addCol (inputCols ++ ["total_bolus"] ++ ["total_carbs"] ++ ["total_basal"]
        ++ ["IOB_novorapid"]) "IOB_tresiba"
      = inputCols ++ ["total_bolus"] ++ ["total_carbs"] ++ ["total_basal"]
        ++ ["IOB_novorapid"] ++ ["IOB_tresiba"] :=
    addCol_not_mem (by simp [h₅])
  have e₆ : addCol (inputCols ++ ["total_bolus"] ++ ["total_carbs"] ++ ["total_basal"]
        ++ ["IOB_novorapid"] ++ ["IOB_tresiba"]) "COB"
      = inputCols ++ ["total_bolus"] ++ ["total_carbs"] ++ ["total_basal"]
        ++ ["IOB_novorapid"] ++ ["IOB_tresiba"] ++ ["COB"] :=
    addCol_not_mem (by simp [h₆])
  have e₇ : addCol (inputCols ++ ["total_bolus"] ++ ["total_carbs"] ++ ["total_basal"]
        ++ ["IOB_novorapid"] ++ ["IOB_tresiba"] ++ ["COB"]) "total_active_insulin"
      = inputCols ++ ["total_bolus"] ++ ["total_carbs"] ++ ["total_basal"]
        ++ ["IOB_novorapid"] ++ ["IOB_tresiba"] ++ ["COB"] ++ ["total_active_insulin"] :=
    addCol_not_mem (by simp [h₇])
  unfold engineColumns
  rw [foldl_addCol, e₁, e₂, e₃, e₄, e₅, e₆]
  by_cases hex : ∃ r ∈ rows, 0 < total_basal r
  · have hne : (rows.filter fun r => decide (0 < total_basal r)) ≠ [] := by
      rw [ne_eq, List.filter_eq_nil_iff]
      push_neg
      obtain ⟨r, hr, hpos⟩ := hex
      exact ⟨r, hr, by simpa using hpos⟩
    rw [if_neg hne, if_pos hex, e₇]
    simp
  · have hnil : (rows.filter fun r => decide (0 < total_basal r)) = [] := by
      rw [List.filter_eq_nil_iff]
      push_neg at hex
      intro r hr
      simpa using hex r hr
    rw [if_pos hnil, if_neg hex]
    simp

/-- Witness for C7's amended theorem on the standard schema. -/
theorem engine_columns_amended_witness :
    (∀ c ∈ (["total_bolus", "total_carbs", "total_basal", "IOB_novorapid",
      "IOB_tresiba", "COB", "total_active_insulin"] : List String), c ∉ BASE_COLS) ∧
    engineColumns BASE_COLS c7_rows
      = BASE_COLS ++ ["total_bolus", "total_carbs", "total_basal",
          "IOB_novorapid", "IOB_tresiba", "COB"]
        ++ (if ∃ r ∈ c7_rows, 0 < total_basal r then ["total_active_insulin"] else []) :=
  ⟨by simp [BASE_COLS],
    (engine_columns_amended BASE_COLS c7_rows (by simp [BASE_COLS])).1⟩

/-- Quiet period used for the sensitivity-division claims: no insulin at
all, constant glucose 11.6 mmol/L above the 5.6 basal, 10 g of carbs
pending at the start and fully absorbed by the end. -/
def quiet_rows : List PRow :=
  [⟨0, 0, 58/5, 0, 0, 0, 0, 0, 0, 0, 10, 1/12⟩,
   ⟨1, 0, 58/5, 0, 0, 0, 0, 0, 0, 0, 0, 1/12⟩]

lemma quiet_agg_eval :
    (process_period_group quiet_rows false (28/5) 0).AUC_novorapid = 0 ∧
    (process_period_group quiet_rows false (28/5) 0).AUC_tresiba = 0 ∧
    (process_period_group quiet_rows false (28/5) 0).AUC_abs_delta_glucose = 1 ∧
    (process_period_group quiet_rows false (28/5) 0).AoC = 10 ∧
    (process_period_group quiet_rows false (28/5) 0).AUC_delta_glucose = 1 := by
  norm_num [process_period_group, groupRows, quiet_rows, roundq4, round_eq,
    prow_total_bolus, qminList, qmaxList, List.filter_cons, List.headI, List.getLastD,
    abs_of_nonneg]

/-- Claim C3, counterexample: on a legitimate quiet period (zero insulin
appearance, nonzero absolute glucose-excess integral) the sensitivity
column is positive infinity — pandas division does not raise, but the
non-finite value propagates into the aggregate output instead of an
explicit sentinel. -/
theorem sensitivity_zero_insulin_counterexample :
    (process_period_group quiet_rows false (28/5) 0).AUC_novorapid
      + (process_period_group quiet_rows false (28/5) 0).AUC_tresiba = 0 ∧
    (process_period_group quiet_rows false (28/5) 0).AUC_abs_delta_glucose ≠ 0 ∧
    insulin_sensitivity_article quiet_rows false (28/5) 0 = PFloat.inf := by
  obtain ⟨h₁, h₂, h₃, h₄, h₅⟩ := quiet_agg_eval
  refine ⟨by rw [h₁, h₂]; ring, by rw [h₃]; norm_num, ?_⟩
  have hg₁ : quiet_rows.headI.glucose = 58/5 := by norm_num [quiet_rows, List.headI]
  have hg₂ : (quiet_rows.getLastD default).glucose = 58/5 := by
    norm_num [quiet_rows, List.getLastD]
  have hden : sens_den_article quiet_rows false (28/5) 0 = 0 := by
    simp only [sens_den_article]
    rw [h₁, h₂]
    norm_num
  have hnum : 0 < sens_numerator quiet_rows false (28/5) 0 := by
    simp only [sens_numerator]
    rw [h₄, h₅, hg₁, hg₂]
    norm_num [BW, GEZI, CONVERSION]
  unfold insulin_sensitivity_article
  rw [hden]
  exact pdiv_zero_denom_pos_num hnum

/-- Claim C3 (amended): a group with zero total insulin appearance or zero
absolute glucose-excess integral makes the corresponding sensitivity
denominator zero, and the pandas division then yields NaN or an
infinity — never an exception, but also not a distinct sentinel: the
non-finite value sits in the output column. -/
theorem sensitivity_zero_denominator_nonfinite (rows : List PRow) (flag : Bool)
    (bg g : ℚ) :
    ((process_period_group rows flag bg g).AUC_novorapid
        + (process_period_group rows flag bg g).AUC_tresiba = 0 ∨
      (process_period_group rows flag bg g).AUC_abs_delta_glucose = 0 →
      insulin_sensitivity_article rows flag bg g = PFloat.nan ∨
      insulin_sensitivity_article rows flag bg g = PFloat.inf ∨
      insulin_sensitivity_article rows flag bg g = PFloat.ninf) ∧
    ((process_period_group rows flag bg g).AUC_novorapid = 0 ∨
      (process_period_group rows flag bg g).AUC_abs_delta_glucose = 0 →
      insulin_sensitivity_nadia rows flag bg g = PFloat.nan ∨
      insulin_sensitivity_nadia rows flag bg g = PFloat.inf ∨
      insulin_sensitivity_nadia rows flag bg g = PFloat.ninf) := by
  constructor
  · intro h
    have hden : sens_den_article rows flag bg g = 0 := by
      simp only [sens_den_article]
      rcases h with h | h
      · have hc : ((process_period_group rows flag bg g).AUC_novorapid : ℝ)
            + ((process_period_group rows flag bg g).AUC_tresiba : ℝ) = 0 := by
          exact_mod_cast congrArg (fun q : ℚ => (q : ℝ)) h
        rw [hc]
        ring
      · have hc : ((process_period_group rows flag bg g).AUC_abs_delta_glucose : ℝ) = 0 := by
          exact_mod_cast congrArg (fun q : ℚ => (q : ℝ)) h
        rw [hc]
        ring
    unfold insulin_sensitivity_article
    rw [hden]
    exact pdiv_zero_denom _
  · intro h
    have hden : sens_den_nadia rows flag bg g = 0 := by
      simp only [sens_den_nadia]
      rcases h with h | h
      · have hc : ((process_period_group rows flag bg g).AUC_novorapid : ℝ) = 0 := by
          exact_mod_cast congrArg (fun q : ℚ => (q : ℝ)) h
        rw [hc]
        ring
      · have hc : ((process_period_group rows flag bg g).AUC_abs_delta_glucose : ℝ) = 0 := by
          exact_mod_cast congrArg (fun q : ℚ => (q : ℝ)) h
        rw [hc]
        ring
    unfold insulin_sensitivity_nadia
    rw [hden]
    exact pdiv_zero_denom _

/-- Witness for C3's amended theorem on the quiet period. -/
theorem sensitivity_zero_denominator_nonfinite_witness :
    ((process_period_group quiet_rows false (28/5) 0).AUC_novorapid
        + (process_period_group quiet_rows false (28/5) 0).AUC_tresiba = 0) ∧
    (insulin_sensitivity_article quiet_rows false (28/5) 0 = PFloat.nan ∨
      insulin_sensitivity_article quiet_rows false (28/5) 0 = PFloat.inf ∨
      insulin_sensitivity_article quiet_rows false (28/5) 0 = PFloat.ninf) := by
  have h : (process_period_group quiet_rows false (28/5) 0).AUC_novorapid
      + (process_period_group quiet_rows false (28/5) 0).AUC_tresiba = 0 := by
    obtain ⟨h₁, h₂, -, -, -⟩ := quiet_agg_eval
    rw [h₁, h₂]
    ring
  exact ⟨h, (sensitivity_zero_denominator_nonfinite quiet_rows false (28/5) 0).1 (Or.inl h)⟩

/-- Two-group input for the boundary claim: carbs-on-board decays from 10
to 4 over four samples, two in group 0 and two in group 1. -/
def twogroup_rows : List PRow :=
  [⟨0, 0, 6, 0, 0, 0, 0, 0, 0, 0, 10, 1/12⟩,
   ⟨1, 0, 6, 0, 0, 0, 0, 0, 0, 0, 8, 1/12⟩,
   ⟨2, 1, 6, 0, 0, 0, 0, 0, 0, 0, 6, 1/12⟩,
   ⟨3, 1, 6, 0, 0, 0, 0, 0, 0, 0, 4, 1/12⟩]

/-- Claim C4, counterexample: for group 1 of a two-group input, the code's
apparent carbohydrate appearance uses the COB boundary values of the
whole input (10 and 4), yielding 6, while the claim's per-group
boundaries (6 and 4) yield 2. -/
theorem aoc_boundary_counterexample :
    (process_period_group twogroup_rows false (28/5) 1).AoC = 6 ∧
    roundq4 (((groupRows twogroup_rows 1).map fun r => r.total_carbs).sum)
      + (groupRows twogroup_rows 1).headI.COB
      - ((groupRows twogroup_rows 1).getLastD default).COB = 2 ∧
    (6 : ℚ) ≠ 2 := by
  refine ⟨?_, ?_, by norm_num⟩ <;>
    norm_num [process_period_group, groupRows, twogroup_rows, roundq4, round_eq,
      prow_total_bolus, List.filter_cons, List.headI, List.getLastD]

/-- Claim C4 (amended): every group's apparent appearance quantities are
its rounded group sums plus boundary values taken from the first and
last row of the whole input; in particular the boundary correction
`AoC - total_carbs` is the same for every group instead of being
group-specific. -/
theorem period_boundaries_from_whole_input (rows : List PRow) (flag : Bool)
    (bg g : ℚ) :
    (process_period_group rows flag bg g).AoC
      = (process_period_group rows flag bg g).total_carbs
        + rows.headI.COB - (rows.getLastD default).COB ∧
    (process_period_group rows flag bg g).AUC_novorapid
      = (process_period_group rows flag bg g).total_bolus
        + rows.headI.IOB_novorapid - (rows.getLastD default).IOB_novorapid ∧
    (process_period_group rows flag bg g).AUC_tresiba
      = (process_period_group rows flag bg g).total_basal
        + rows.headI.IOB_tresiba - (rows.getLastD default).IOB_tresiba ∧
    (∀ g₁ g₂ : ℚ,
      (process_period_group rows flag bg g₁).AoC
          - (process_period_group rows flag bg g₁).total_carbs
        = (process_period_group rows flag bg g₂).AoC
          - (process_period_group rows flag bg g₂).total_carbs) := by
  refine ⟨rfl, rfl, rfl, fun g₁ g₂ => ?_⟩
  show (process_period_group rows flag bg g₁).total_carbs + rows.headI.COB
      - (rows.getLastD default).COB - (process_period_group rows flag bg g₁).total_carbs
    = (process_period_group rows flag bg g₂).total_carbs + rows.headI.COB
      - (rows.getLastD default).COB - (process_period_group rows flag bg g₂).total_carbs
  ring

end DiabetTools
